import Mathlib

/-!
A shallow embedding of the route handlers of `app.py` (the Warbler Flask
application).  The database is a record of lists of rows; handlers are pure
functions from the database, the session and the validation outcome of the
submitted form to a result holding the response, the updated database, the
updated session and the flash messages emitted during the request.

Conventions used throughout:

* `sess : Option Nat` models the Flask session: `some uid` when
  `CURR_USER_KEY` is present, `none` otherwise.
* `tokenOk` / `formValid : Bool` model the outcome of
  `form.validate_on_submit()` (anti-forgery token plus field validation).
* SQLAlchemy lookups `Model.query.get` become `List.find?`; `get_or_404`
  aborts the request with `Response.notFound` when the lookup misses.
* A handler body that falls off the end (Python implicitly returning
  `None`) yields `Response.noResponse`.
* An uncaught Python exception (for example an attribute access on `None`)
  yields `Response.pyError` with a short description.
-/

namespace Warbler

/-- A row of the `users` table (fields of the `User` model used by `app.py`). -/
structure UserRec where
  id : Nat
  username : String
  email : String
  image_url : String
  header_image_url : String
  bio : String
deriving DecidableEq

/-- A row of the `messages` table (fields of the `Message` model used by `app.py`). -/
structure Msg where
  id : Nat
  text : String
  timestamp : Nat
  user_id : Nat
deriving DecidableEq

/-- The relational state: users, messages, like edges `(user_id, message_id)`
and follow edges `(user_following_id, user_being_followed_id)`. -/
structure DB where
  users : List UserRec
  messages : List Msg
  likes : List (Nat × Nat)
  follows : List (Nat × Nat)
deriving DecidableEq

/-- A flash message: text and category, as produced by `flash(msg, category)`. -/
abbrev Flash := String × String

/-- The response a handler produces. Render constructors carry the context the
template receives, where a claim depends on it. -/
inductive Response where
  | redirect : String → Response
  | renderSignup : Response
  | renderLogin : Response
  | renderEdit : Response
  | renderNewMessage : Response
  | renderShowUser : UserRec → List Nat → Response
  | renderShowMessage : Option Msg → List Nat → Response
  | renderHome : List Msg → List Nat → Response
  | renderHomeAnon : Response
  | notFound : Response
  | noResponse : Response
  | pyError : String → Response
deriving DecidableEq

/-- The full outcome of one request: response, database after any commit,
session after the request, and the flash messages emitted. -/
structure HResult where
  response : Response
  db : DB
  session : Option Nat
  flashes : List Flash
deriving DecidableEq

/-- Embeds `User.query.get uid`: first user row with the given id. -/
def DB.getUser (db : DB) (uid : Nat) : Option UserRec :=
  db.users.find? (fun u => u.id == uid)

/-- Embeds `Message.query.get mid`: first message row with the given id. -/
def DB.getMessage (db : DB) (mid : Nat) : Option Msg :=
  db.messages.find? (fun m => m.id == mid)

/-- Embeds `user.liked_messages`: the messages joined to `user` through the `likes`
edge table. -/
def DB.likedMessages (db : DB) (u : UserRec) : List Msg :=
  db.messages.filter (fun m => db.likes.contains (u.id, m.id))

/-- Embeds `user.following`: the users joined to `user` through the `follows` edge
table, `user` being the follower. -/
def DB.following (db : DB) (u : UserRec) : List UserRec :=
  db.users.filter (fun v => db.follows.contains (u.id, v.id))

/-- Embeds `add_user_to_g` (app.py:32-41): `g.user` is the user the session points
at, or `None` when the session has no user key. -/
def add_user_to_g (db : DB) (sess : Option Nat) : Option UserRec :=
  match sess with
  | some uid => db.getUser uid
  | none => none

/-- The `flash("Access unauthorized.", "danger"); return redirect("/")`
branch shared by the guarded handlers. -/
def authRedirect (db : DB) (sess : Option Nat) : HResult :=
  { response := .redirect "/", db := db, session := sess,
    flashes := [("Access unauthorized.", "danger")] }

/-- Embeds `logout` (app.py:113-123): validates the anti-forgery form, clears the
session and redirects to `/login`; there is no `g.user` guard, and a failed
validation falls off the end of the function. -/
def logout (db : DB) (sess : Option Nat) (tokenOk : Bool) : HResult :=
  if tokenOk then
    { response := .redirect "/login", db := db, session := none,
      flashes := [("Successfully logged out", "success")] }
  else
    { response := .noResponse, db := db, session := sess, flashes := [] }

/-- Embeds `signup` (app.py:57-90).  The uniqueness test on username and email is
the database constraint of the `User` model.  Modelled from the spec: the
`users` table (models.py, not under src/) declares `username` and `email`
unique, so `db.session.commit()` raises `IntegrityError` exactly when another
row already carries the submitted username or email; the handler catches it,
flashes and re-renders the form. -/
def signup (db : DB) (sess : Option Nat) (formValid : Bool)
    (username email imageUrl : String) (newId : Nat) : HResult :=
  if formValid then
    if db.users.any (fun u => u.username == username || u.email == email) then
      { response := .renderSignup, db := db, session := sess,
        flashes := [("Username already taken", "danger")] }
    else
      let newUser : UserRec :=
        { id := newId, username := username, email := email,
          image_url := imageUrl, header_image_url := "", bio := "" }
      { response := .redirect "/",
        db := { db with users := db.users ++ [newUser] },
        session := some newId, flashes := [] }
  else
    { response := .renderSignup, db := db, session := sess, flashes := [] }

/-- Embeds `users_show` (app.py:145-152): `get_or_404` on the user id, then the
liked-message ids are read off `g.user.liked_messages`, which raises
`AttributeError` when `g.user` is `None`. -/
def users_show (db : DB) (sess : Option Nat) (userId : Nat) : HResult :=
  match db.getUser userId with
  | none => { response := .notFound, db := db, session := sess, flashes := [] }
  | some user =>
    match add_user_to_g db sess with
    | none =>
      { response := .pyError "AttributeError: NoneType has no attribute liked_messages",
        db := db, session := sess, flashes := [] }
    | some gu =>
      { response := .renderShowUser user ((db.likedMessages gu).map (fun m => m.id)),
        db := db, session := sess, flashes := [] }

/-- Embeds `add_follow` (app.py:179-193): guarded by `g.user`, then the form; the
followed user is looked up with `get_or_404` and appended to
`g.user.following` with no self-follow or duplicate check. -/
def add_follow (db : DB) (sess : Option Nat) (tokenOk : Bool) (followId : Nat) : HResult :=
  match add_user_to_g db sess with
  | none => authRedirect db sess
  | some u =>
    if tokenOk then
      match db.getUser followId with
      | none => { response := .notFound, db := db, session := sess, flashes := [] }
      | some fu =>
        { response := .redirect ("/users/" ++ toString u.id ++ "/following"),
          db := { db with follows := db.follows ++ [(u.id, fu.id)] },
          session := sess, flashes := [] }
    else
      { response := .noResponse, db := db, session := sess, flashes := [] }

/-- Embeds `stop_following` (app.py:196-211): guarded by `g.user`, then the form;
the followed user is looked up with plain `get`, so a missing id passes
`None` to `g.user.following.remove`, which raises; removing a user that is
not in the collection raises as well. -/
def stop_following (db : DB) (sess : Option Nat) (tokenOk : Bool) (followId : Nat) : HResult :=
  match add_user_to_g db sess with
  | none => authRedirect db sess
  | some u =>
    if tokenOk then
      match db.getUser followId with
      | none =>
        { response := .pyError "ValueError: following.remove called with None",
          db := db, session := sess, flashes := [] }
      | some fu =>
        if db.follows.contains (u.id, fu.id) then
          { response := .redirect ("/users/" ++ toString u.id ++ "/following"),
            db := { db with follows := db.follows.erase (u.id, fu.id) },
            session := sess, flashes := [] }
        else
          { response := .pyError "ValueError: user not in following",
            db := db, session := sess, flashes := [] }
    else
      { response := .noResponse, db := db, session := sess, flashes := [] }

/-- Embeds `profile` (app.py:214-237): guarded by `g.user`; a valid form with a
failed password check flashes and re-renders, a valid form with a passing
check updates the profile fields and redirects. `authOk` models
`User.authenticate(g.user.username, form.password.data)` succeeding. -/
def profile (db : DB) (sess : Option Nat) (formValid authOk : Bool)
    (username email imageUrl headerImageUrl bio : String) : HResult :=
  match add_user_to_g db sess with
  | none => authRedirect db sess
  | some u =>
    if formValid && !authOk then
      { response := .renderEdit, db := db, session := sess,
        flashes := [("Unauthorized!", "danger")] }
    else if formValid && authOk then
      let u' : UserRec :=
        { u with
          username := username
          email := email
          image_url := imageUrl
          header_image_url := headerImageUrl
          bio := bio }
      { response := .redirect ("/users/" ++ toString u.id),
        db := { db with users := db.users.map (fun v => if v.id == u.id then u' else v) },
        session := sess, flashes := [] }
    else
      { response := .renderEdit, db := db, session := sess, flashes := [] }

/-- The rows removed when a user row is deleted.  Modelled from the spec:
deleting a user cascades to their messages and to their like and follow
edges (the cascade declarations live in models.py, not under src/). -/
def deleteUserCascade (db : DB) (uid : Nat) : DB :=
  let remainingMsgs := db.messages.filter (fun m => !(m.user_id == uid))
  { users := db.users.filter (fun v => !(v.id == uid))
    messages := remainingMsgs
    likes := db.likes.filter
      (fun e => !(e.1 == uid) && remainingMsgs.any (fun m => m.id == e.2))
    follows := db.follows.filter (fun e => !(e.1 == uid) && !(e.2 == uid)) }

/-- Embeds `delete_user` (app.py:240-256): guarded by `g.user`, then the form;
logs out, deletes the user row and redirects to `/signup`.  A failed
validation falls off the end of the function. -/
def delete_user (db : DB) (sess : Option Nat) (tokenOk : Bool) : HResult :=
  match add_user_to_g db sess with
  | none => authRedirect db sess
  | some u =>
    if tokenOk then
      { response := .redirect "/signup", db := deleteUserCascade db u.id,
        session := none, flashes := [] }
    else
      { response := .noResponse, db := db, session := sess, flashes := [] }

/-- Embeds `messages_add` (app.py:263-283): guarded by `g.user`; a valid form
appends a new message for `g.user` and redirects, an invalid one re-renders
the form.  `newId` and `ts` stand for the id and timestamp the database
assigns to the new row. -/
def messages_add (db : DB) (sess : Option Nat) (formValid : Bool)
    (text : String) (newId ts : Nat) : HResult :=
  match add_user_to_g db sess with
  | none => authRedirect db sess
  | some u =>
    if formValid then
      { response := .redirect ("/users/" ++ toString u.id),
        db := { db with messages := db.messages ++
          [{ id := newId, text := text, timestamp := ts, user_id := u.id }] },
        session := sess, flashes := [] }
    else
      { response := .renderNewMessage, db := db, session := sess, flashes := [] }

/-- Embeds `messages_show` (app.py:286-293): plain `get` on the message id (a miss
passes `None` into the template), and the liked-message ids are read off
`g.user.liked_messages`, which raises `AttributeError` when `g.user` is
`None`. -/
def messages_show (db : DB) (sess : Option Nat) (messageId : Nat) : HResult :=
  let msg := db.getMessage messageId
  match add_user_to_g db sess with
  | none =>
    { response := .pyError "AttributeError: NoneType has no attribute liked_messages",
      db := db, session := sess, flashes := [] }
  | some u =>
    { response := .renderShowMessage msg ((db.likedMessages u).map (fun m => m.id)),
      db := db, session := sess, flashes := [] }

/-- Embeds `messages_destroy` (app.py:296-314): guarded by `g.user`, then the form;
the message is looked up with plain `get` — a miss passes `None` to
`db.session.delete`, which raises — and deleted without any ownership check.
A failed validation flashes and redirects to `/`.  The removal of the like
edges of the deleted message is the delete cascade of the `Message` model,
modelled from the spec (models.py is not under src/). -/
def messages_destroy (db : DB) (sess : Option Nat) (tokenOk : Bool) (messageId : Nat) : HResult :=
  match add_user_to_g db sess with
  | none => authRedirect db sess
  | some u =>
    if tokenOk then
      match db.getMessage messageId with
      | none =>
        { response := .pyError "UnmappedInstanceError: session.delete called with None",
          db := db, session := sess, flashes := [] }
      | some _ =>
        { response := .redirect ("/users/" ++ toString u.id),
          db := { db with
            messages := db.messages.eraseP (fun m => m.id == messageId),
            likes := db.likes.filter (fun e => !(e.2 == messageId)) },
          session := sess, flashes := [] }
    else
      { response := .redirect "/", db := db, session := sess,
        flashes := [("Action unauthorized!", "danger")] }

/-- How `_handle_like_unlike` hands control back to its caller: a `404`
raised by `get_or_404`, an early `return redirect(...)`, or a normal fall
through after the commit. -/
inductive LikeControl where
  | raisedNotFound : LikeControl
  | returnedRedirect : String → LikeControl
  | finished : LikeControl
deriving DecidableEq

/-- Database, flashes and control outcome of `_handle_like_unlike`. -/
structure LikeResult where
  db : DB
  flashes : List Flash
  control : LikeControl
deriving DecidableEq

/-- Embeds `_handle_like_unlike` (app.py:321-342): reads the liked-message ids,
looks the message up with `get_or_404`, rejects liking one's own message
before any commit, and otherwise toggles the like edge and commits. -/
def handle_like_unlike (db : DB) (u : UserRec) (messageId : Nat) : LikeResult :=
  let userLikesIds := (db.likedMessages u).map (fun m => m.id)
  let isLiked := userLikesIds.contains messageId
  match db.getMessage messageId with
  | none => { db := db, flashes := [], control := .raisedNotFound }
  | some msg =>
    if msg.user_id == u.id then
      { db := db,
        flashes := [("Sorry, you cannot like your own message!", "danger")],
        control := .returnedRedirect ("/users/" ++ toString u.id) }
    else if isLiked then
      { db := { db with likes := db.likes.erase (u.id, messageId) },
        flashes := [("message unliked!", "danger")], control := .finished }
    else
      { db := { db with likes := db.likes ++ [(u.id, messageId)] },
        flashes := [("message liked!", "success")], control := .finished }

/-- Where `handle_message_like_unlike` redirects after the helper returns:
`request.referrer` when truthy, `/` otherwise. -/
def referrerTarget (referrer : Option String) : String :=
  match referrer with
  | some r => if r.isEmpty then "/" else r
  | none => "/"

/-- Embeds `handle_message_like_unlike` (app.py:345-362): guarded by `g.user`, then
the form; calls `_handle_like_unlike` discarding its return value — only a
raised 404 escapes — and redirects to the referrer or `/`.  A failed
validation falls off the end of the function. -/
def handle_message_like_unlike (db : DB) (sess : Option Nat) (tokenOk : Bool)
    (referrer : Option String) (messageId : Nat) : HResult :=
  match add_user_to_g db sess with
  | none => authRedirect db sess
  | some u =>
    if tokenOk then
      let r := handle_like_unlike db u messageId
      match r.control with
      | .raisedNotFound =>
        { response := .notFound, db := r.db, session := sess, flashes := r.flashes }
      | _ =>
        { response := .redirect (referrerTarget referrer), db := r.db,
          session := sess, flashes := r.flashes }
    else
      { response := .noResponse, db := db, session := sess, flashes := [] }

/-- The homepage query (app.py:392-398): messages whose author is followed
by `u` or is `u`, ordered by timestamp descending, limited to 100. -/
def homepageMessages (db : DB) (u : UserRec) : List Msg :=
  let followingIds := (db.following u).map (fun v => v.id)
  ((db.messages.filter
      (fun m => followingIds.contains m.user_id || m.user_id == u.id)).mergeSort
    (fun a b => decide (b.timestamp ≤ a.timestamp))).take 100

/-- Embeds `homepage` (app.py:382-405): a logged-in user gets the query result and
their liked-message ids, an anonymous visitor the message-free template. -/
def homepage (db : DB) (sess : Option Nat) : HResult :=
  match add_user_to_g db sess with
  | some u =>
    { response := .renderHome (homepageMessages db u)
        ((db.likedMessages u).map (fun m => m.id)),
      db := db, session := sess, flashes := [] }
  | none =>
    { response := .renderHomeAnon, db := db, session := sess, flashes := [] }

/-! Concrete fixtures used by witnesses and counterexamples. -/

/-- A user row with the given id and username. -/
def mkUser (i : Nat) (un em : String) : UserRec :=
  { id := i, username := un, email := em, image_url := "", header_image_url := "", bio := "" }

/-- A message row with the given id, owner and timestamp. -/
def mkMsg (i uid ts : Nat) : Msg :=
  { id := i, text := "hello", timestamp := ts, user_id := uid }

/-- Fixture: the empty database. -/
def dbEmpty : DB := { users := [], messages := [], likes := [], follows := [] }

/-- Fixture: user 1 alone. -/
def dbOneUser : DB :=
  { users := [mkUser 1 "alice" "alice@mail"], messages := [], likes := [], follows := [] }

/-- Fixture: user 1 and a message of their own. -/
def dbOwnMessage : DB :=
  { users := [mkUser 1 "alice" "alice@mail"], messages := [mkMsg 7 1 3],
    likes := [], follows := [] }

/-- Fixture: users 1 and 2, message 10 owned by user 2. -/
def dbForeignMessage : DB :=
  { users := [mkUser 1 "alice" "alice@mail", mkUser 2 "bob" "bob@mail"],
    messages := [mkMsg 10 2 4], likes := [], follows := [] }

/-- Fixture: users 1 and 2, message 10 owned by user 2 and already liked by
user 1. -/
def dbLikedMessage : DB :=
  { users := [mkUser 1 "alice" "alice@mail", mkUser 2 "bob" "bob@mail"],
    messages := [mkMsg 10 2 4], likes := [(1, 10)], follows := [] }

/-- Fixture: users 1, 2 and 3; user 1 follows user 2; messages by all three. -/
def dbTimeline : DB :=
  { users := [mkUser 1 "alice" "alice@mail", mkUser 2 "bob" "bob@mail",
              mkUser 3 "carol" "carol@mail"],
    messages := [mkMsg 20 2 5, mkMsg 21 1 3, mkMsg 22 3 9, mkMsg 23 2 7],
    likes := [], follows := [(1, 2)] }

/-! Claim theorems. -/

/-- C1 counterexample: the mutating route POST /logout does not behave as the
claim states for an unauthenticated request (empty session): with a validated
token it redirects to /login — not to / — and flashes a success message, not
an access-unauthorized one; the session-guard redirect of the other mutating
routes never happens. -/
theorem logout_unauthenticated_counterexample :
    (logout dbEmpty none true).response = .redirect "/login"
    ∧ (logout dbEmpty none true).response ≠ .redirect "/"
    ∧ (logout dbEmpty none true).flashes ≠ [("Access unauthorized.", "danger")] := by
  refine ⟨rfl, by decide, by decide⟩

/-- C1 (amended): every mutating route except POST /logout requires an active
session — an unauthenticated request redirects to / with an
access-unauthorized flash and leaves the database unchanged — and a failed
anti-forgery validation never mutates the database on any mutating route;
POST /logout has no session guard: with a validated token it logs out and
redirects to /login even for an unauthenticated request. -/
theorem mutating_route_guards (db : DB) (sess : Option Nat) (tok fv ao : Bool)
    (fid mid nid ts : Nat) (txt un em img hdr bio : String) (ref : Option String) :
    add_follow db none tok fid = authRedirect db none
    ∧ stop_following db none tok fid = authRedirect db none
    ∧ profile db none fv ao un em img hdr bio = authRedirect db none
    ∧ delete_user db none tok = authRedirect db none
    ∧ messages_add db none fv txt nid ts = authRedirect db none
    ∧ messages_destroy db none tok mid = authRedirect db none
    ∧ handle_message_like_unlike db none tok ref mid = authRedirect db none
    ∧ (logout db sess false).db = db
    ∧ (add_follow db sess false fid).db = db
    ∧ (stop_following db sess false fid).db = db
    ∧ (profile db sess false ao un em img hdr bio).db = db
    ∧ (delete_user db sess false).db = db
    ∧ (messages_add db sess false txt nid ts).db = db
    ∧ (messages_destroy db sess false mid).db = db
    ∧ (handle_message_like_unlike db sess false ref mid).db = db
    ∧ logout db none true =
      { response := .redirect "/login", db := db, session := none,
        flashes := [("Successfully logged out", "success")] } := by
  refine ⟨rfl, rfl, rfl, rfl, rfl, rfl, rfl, ?_, ?_, ?_, ?_, ?_, ?_, ?_, ?_, rfl⟩
  all_goals cases h : add_user_to_g db sess <;>
    simp [logout, add_follow, stop_following, profile, delete_user, messages_add,
      messages_destroy, handle_message_like_unlike, authRedirect, h]

/-- C10: on POST /logout, /users/follow/<id>, /users/delete and
/messages/<id>/like, an authenticated request whose anti-forgery validation
fails falls through every branch: the handler returns no response value,
performs no mutation, emits no flash and leaves the session unchanged. -/
theorem failed_validation_falls_through (db : DB) (sess : Option Nat) (u : UserRec)
    (fid mid : Nat) (ref : Option String)
    (hg : add_user_to_g db sess = some u) :
    logout db sess false =
      { response := .noResponse, db := db, session := sess, flashes := [] }
    ∧ add_follow db sess false fid =
      { response := .noResponse, db := db, session := sess, flashes := [] }
    ∧ delete_user db sess false =
      { response := .noResponse, db := db, session := sess, flashes := [] }
    ∧ handle_message_like_unlike db sess false ref mid =
      { response := .noResponse, db := db, session := sess, flashes := [] } := by
  refine ⟨rfl, ?_, ?_, ?_⟩ <;>
    simp [add_follow, delete_user, handle_message_like_unlike, hg]

/-- C10 witness: the fall-through outcome at a concrete authenticated
request. -/
theorem failed_validation_falls_through_witness :
    logout dbOneUser (some 1) false =
      { response := .noResponse, db := dbOneUser, session := some 1, flashes := [] }
    ∧ add_follow dbOneUser (some 1) false 2 =
      { response := .noResponse, db := dbOneUser, session := some 1, flashes := [] }
    ∧ delete_user dbOneUser (some 1) false =
      { response := .noResponse, db := dbOneUser, session := some 1, flashes := [] }
    ∧ handle_message_like_unlike dbOneUser (some 1) false none 3 =
      { response := .noResponse, db := dbOneUser, session := some 1, flashes := [] } :=
  failed_validation_falls_through dbOneUser (some 1) (mkUser 1 "alice" "alice@mail")
    2 3 none rfl

/-- C9: for an anonymous request (no user key in the session, so `g.user` is
`None`), GET /messages/<id> always dereferences `liked_messages` on the null
current user and fails with an error, and GET /users/<id> does the same for
every existing user id; neither renders its page nor redirects. -/
theorem anon_show_routes_error (db : DB) (mid uid : Nat) (user : UserRec)
    (hu : db.getUser uid = some user) :
    (messages_show db none mid).response =
      .pyError "AttributeError: NoneType has no attribute liked_messages"
    ∧ (users_show db none uid).response =
      .pyError "AttributeError: NoneType has no attribute liked_messages" := by
  refine ⟨rfl, ?_⟩
  simp [users_show, hu, add_user_to_g]

/-- C9 witness: the anonymous crash at a concrete database with an existing
user and message. -/
theorem anon_show_routes_error_witness :
    (messages_show dbOwnMessage none 7).response =
      .pyError "AttributeError: NoneType has no attribute liked_messages"
    ∧ (users_show dbOwnMessage none 1).response =
      .pyError "AttributeError: NoneType has no attribute liked_messages" :=
  anon_show_routes_error dbOwnMessage 7 1 (mkUser 1 "alice" "alice@mail") rfl

/-- C8: for an authenticated request naming a missing resource id, the
handlers using `get_or_404` (POST /users/follow/<id> and the like route's
message lookup) terminate with a not-found response, while the handlers
using plain `get` (POST /users/stop-following/<id>, GET /messages/<id>,
POST /messages/<id>/delete) pass the null lookup result downstream — into
`remove`, the template, and `session.delete` — instead of producing a
not-found response. -/
theorem lookup_miss_behavior (db : DB) (sess : Option Nat) (u : UserRec) (rid : Nat)
    (hg : add_user_to_g db sess = some u)
    (hu : db.getUser rid = none)
    (hm : db.getMessage rid = none) :
    (add_follow db sess true rid).response = .notFound
    ∧ (handle_message_like_unlike db sess true none rid).response = .notFound
    ∧ (stop_following db sess true rid).response =
        .pyError "ValueError: following.remove called with None"
    ∧ (stop_following db sess true rid).response ≠ .notFound
    ∧ (messages_show db sess rid).response =
        .renderShowMessage none ((db.likedMessages u).map (fun m => m.id))
    ∧ (messages_show db sess rid).response ≠ .notFound
    ∧ (messages_destroy db sess true rid).response =
        .pyError "UnmappedInstanceError: session.delete called with None"
    ∧ (messages_destroy db sess true rid).response ≠ .notFound := by
  refine ⟨?_, ?_, ?_, ?_, ?_, ?_, ?_, ?_⟩ <;>
    simp [add_follow, handle_message_like_unlike, handle_like_unlike,
      stop_following, messages_show, messages_destroy, hg, hu, hm]

/-- C8 witness: the miss behaviors at a concrete database, for id 99 which
is neither a user nor a message. -/
theorem lookup_miss_behavior_witness :
    (add_follow dbOneUser (some 1) true 99).response = .notFound
    ∧ (handle_message_like_unlike dbOneUser (some 1) true none 99).response = .notFound
    ∧ (stop_following dbOneUser (some 1) true 99).response =
        .pyError "ValueError: following.remove called with None"
    ∧ (messages_show dbOneUser (some 1) 99).response =
        .renderShowMessage none
          ((dbOneUser.likedMessages (mkUser 1 "alice" "alice@mail")).map (fun m => m.id))
    ∧ (messages_destroy dbOneUser (some 1) true 99).response =
        .pyError "UnmappedInstanceError: session.delete called with None" := by
  have h := lookup_miss_behavior dbOneUser (some 1) (mkUser 1 "alice" "alice@mail")
    99 rfl rfl rfl
  exact ⟨h.1, h.2.1, h.2.2.1, h.2.2.2.2.1, h.2.2.2.2.2.2.1⟩

/-- C5: a validated signup whose username or email duplicates an existing
user row is caught (the IntegrityError raised at commit), surfaced as a
flash message with the signup form re-rendered — no server error — and
persists no second user row: the database and the session are unchanged. -/
theorem signup_duplicate_caught (db : DB) (sess : Option Nat)
    (un em img : String) (nid : Nat) (w : UserRec)
    (hw : w ∈ db.users) (hdup : w.username = un ∨ w.email = em) :
    signup db sess true un em img nid =
      { response := .renderSignup, db := db, session := sess,
        flashes := [("Username already taken", "danger")] } := by
  have hany : db.users.any (fun u => u.username == un || u.email == em) = true := by
    refine List.any_eq_true.mpr ⟨w, hw, ?_⟩
    rcases hdup with h | h <;> simp [h]
  simp [signup, hany]

/-- C5 witness: signing up again with the username of the existing user
alice re-renders the form with a flash and leaves the database unchanged. -/
theorem signup_duplicate_caught_witness :
    signup dbOneUser none true "alice" "other@mail" "" 5 =
      { response := .renderSignup, db := dbOneUser, session := none,
        flashes := [("Username already taken", "danger")] } :=
  signup_duplicate_caught dbOneUser none "alice" "other@mail" "" 5
    (mkUser 1 "alice" "alice@mail") (by simp [dbOneUser]) (Or.inl rfl)

/-- C2: a logged-in user liking their own message is rejected: the handler
flashes the rejection message and returns before any commit, so the database
— the like edge set included — is unchanged, and the route answers with the
usual referrer redirect. -/
theorem like_own_message_rejected (db : DB) (sess : Option Nat) (u : UserRec)
    (ref : Option String) (mid : Nat) (msg : Msg)
    (hg : add_user_to_g db sess = some u)
    (hm : db.getMessage mid = some msg)
    (hown : msg.user_id = u.id) :
    handle_message_like_unlike db sess true ref mid =
      { response := .redirect (referrerTarget ref), db := db, session := sess,
        flashes := [("Sorry, you cannot like your own message!", "danger")] } := by
  simp [handle_message_like_unlike, handle_like_unlike, hg, hm, hown]

/-- C2 witness: user 1 attempting to like their own message 7 — the database
is unchanged and the rejection is flashed. -/
theorem like_own_message_rejected_witness :
    handle_message_like_unlike dbOwnMessage (some 1) true (some "/users") 7 =
      { response := .redirect (referrerTarget (some "/users")), db := dbOwnMessage,
        session := some 1,
        flashes := [("Sorry, you cannot like your own message!", "danger")] } :=
  like_own_message_rejected dbOwnMessage (some 1) (mkUser 1 "alice" "alice@mail")
    (some "/users") 7 (mkMsg 7 1 3) rfl rfl rfl

/-- C7 counterexample: with user 1 logged in and a validated token, POST
/users/follow/1 — the user following themself — does add the self-follow
edge (1, 1): no application-layer check prevents it. -/
theorem add_follow_self_counterexample :
    (1, 1) ∈ (add_follow dbOneUser (some 1) true 1).db.follows := by
  decide

/-- C7 (amended): the application layer performs no self-follow check: for
every logged-in user, a validated POST to /users/follow/<id> with id equal
to the session user id appends the self-follow edge to the follows table. -/
theorem add_follow_appends_self_edge (db : DB) (uid : Nat) (u : UserRec)
    (hg : db.getUser uid = some u) :
    (add_follow db (some uid) true uid).db.follows = db.follows ++ [(u.id, u.id)]
    ∧ (u.id, u.id) ∈ (add_follow db (some uid) true uid).db.follows := by
  constructor <;> simp [add_follow, add_user_to_g, hg]

/-- C7 witness: the amended statement at the concrete one-user database. -/
theorem add_follow_appends_self_edge_witness :
    (add_follow dbOneUser (some 1) true 1).db.follows = dbOneUser.follows ++ [(1, 1)]
    ∧ (1, 1) ∈ (add_follow dbOneUser (some 1) true 1).db.follows :=
  add_follow_appends_self_edge dbOneUser 1 (mkUser 1 "alice" "alice@mail") rfl

/-- C6 counterexample: message 10 exists and is owned by user 2, user 1 is
logged in, yet a validated POST /messages/10/delete removes the message —
the claimed owner-only deletion does not hold. -/
theorem messages_destroy_foreign_counterexample :
    (dbForeignMessage.getMessage 10).map (fun m => m.user_id) = some 2
    ∧ add_user_to_g dbForeignMessage (some 1) = some (mkUser 1 "alice" "alice@mail")
    ∧ (messages_destroy dbForeignMessage (some 1) true 10).db.messages = [] := by
  refine ⟨rfl, rfl, rfl⟩

/-- C6 (amended): POST /messages/<id>/delete performs no ownership check:
any logged-in user with a validated token deletes any existing message —
here one they do not own — and is redirected to their own user page; the
messages table loses exactly that row. -/
theorem messages_destroy_ignores_ownership (db : DB) (sess : Option Nat)
    (u : UserRec) (mid : Nat) (msg : Msg)
    (hg : add_user_to_g db sess = some u)
    (hm : db.getMessage mid = some msg)
    (_hnotown : msg.user_id ≠ u.id) :
    (messages_destroy db sess true mid).response = .redirect ("/users/" ++ toString u.id)
    ∧ (messages_destroy db sess true mid).db.messages
        = db.messages.eraseP (fun m => m.id == mid)
    ∧ ((messages_destroy db sess true mid).db.messages).length + 1
        = db.messages.length := by
  have hm' : db.messages.find? (fun m => m.id == mid) = some msg := hm
  have hmem : msg ∈ db.messages := List.mem_of_find?_eq_some hm'
  have hp : (msg.id == mid) = true := by simpa using List.find?_some hm'
  have hany : db.messages.any (fun m => m.id == mid) = true :=
    List.any_eq_true.mpr ⟨msg, hmem, hp⟩
  have hlen : 1 ≤ db.messages.length := List.length_pos_of_mem hmem
  refine ⟨?_, ?_, ?_⟩
  · simp [messages_destroy, hg, hm]
  · simp [messages_destroy, hg, hm]
  · simp [messages_destroy, hg, hm, List.length_eraseP, hany]
    omega

/-- C6 witness: the amended statement at the concrete database where user 1
deletes message 10 owned by user 2. -/
theorem messages_destroy_ignores_ownership_witness :
    (messages_destroy dbForeignMessage (some 1) true 10).response = .redirect "/users/1"
    ∧ (messages_destroy dbForeignMessage (some 1) true 10).db.messages
        = dbForeignMessage.messages.eraseP (fun m => m.id == 10)
    ∧ ((messages_destroy dbForeignMessage (some 1) true 10).db.messages).length + 1
        = dbForeignMessage.messages.length :=
  messages_destroy_ignores_ownership dbForeignMessage (some 1)
    (mkUser 1 "alice" "alice@mail") 10 (mkMsg 10 2 4) rfl rfl (by decide)

/-- Erasing a pair through the product `BEq` instance agrees with erasing it
through decidable equality (both are lawful). -/
theorem erase_pair_eq (l : List (Nat × Nat)) (a : Nat × Nat) :
    l.erase a = @List.erase _ instBEqOfDecidableEq l a := by
  induction l with
  | nil => rfl
  | cons b t ih =>
    by_cases h : b = a <;> simp [List.erase_cons, h, ih, instBEqOfDecidableEq]

/-- The liked-message ids used by `_handle_like_unlike` contain `mid`
exactly when the like edge `(u.id, mid)` is present, given that message
`mid` exists. -/
theorem likedIds_contains_eq (db : DB) (u : UserRec) (mid : Nat) (msg : Msg)
    (hm : db.getMessage mid = some msg) :
    ((db.likedMessages u).map (fun m => m.id)).contains mid
      = db.likes.contains (u.id, mid) := by
  have hm' : db.messages.find? (fun m => m.id == mid) = some msg := hm
  have hmem : msg ∈ db.messages := List.mem_of_find?_eq_some hm'
  have hid : msg.id = mid := by simpa using List.find?_some hm'
  by_cases h : (u.id, mid) ∈ db.likes
  · have h1 : mid ∈ (db.likedMessages u).map (fun m => m.id) := by
      refine List.mem_map.mpr ⟨msg, ?_, hid⟩
      have : msg ∈ db.messages.filter (fun m => db.likes.contains (u.id, m.id)) :=
        List.mem_filter.mpr ⟨hmem, by simp [hid, h]⟩
      exact this
    have e1 : ((db.likedMessages u).map (fun m => m.id)).contains mid = true := by
      simpa using h1
    have e2 : db.likes.contains (u.id, mid) = true := by simpa using h
    rw [e1, e2]
  · have h1 : mid ∉ (db.likedMessages u).map (fun m => m.id) := by
      intro hmm
      rcases List.mem_map.mp hmm with ⟨m, hmf, hmid⟩
      have hmf' : m ∈ db.messages.filter (fun m => db.likes.contains (u.id, m.id)) := hmf
      rcases List.mem_filter.mp hmf' with ⟨_, hcon⟩
      apply h
      have hin : (u.id, m.id) ∈ db.likes := by simpa using hcon
      simpa [hmid] using hin
    have e1 : ((db.likedMessages u).map (fun m => m.id)).contains mid = false := by
      simpa using h1
    have e2 : db.likes.contains (u.id, mid) = false := by simpa using h
    rw [e1, e2]

/-- One `_handle_like_unlike` call, characterised when the message exists
and is not the caller's own: the like edge is erased when present and
appended when absent, the matching flash is emitted, and control falls
through to the commit. -/
theorem handle_like_unlike_eq (db : DB) (u : UserRec) (mid : Nat) (msg : Msg)
    (hm : db.getMessage mid = some msg) (hown : msg.user_id ≠ u.id) :
    handle_like_unlike db u mid =
      if (u.id, mid) ∈ db.likes then
        { db := { db with likes := db.likes.erase (u.id, mid) },
          flashes := [("message unliked!", "danger")], control := .finished }
      else
        { db := { db with likes := db.likes ++ [(u.id, mid)] },
          flashes := [("message liked!", "success")], control := .finished } := by
  have hc := likedIds_contains_eq db u mid msg hm
  by_cases h : (u.id, mid) ∈ db.likes
  · have hct : ((db.likedMessages u).map (fun m => m.id)).contains mid = true := by
      rw [hc]; simpa using h
    have hmm : mid ∈ (db.likedMessages u).map (fun m => m.id) := by simpa using hct
    simp [handle_like_unlike, hm, hown, hct, hmm, h]
  · have hcf : ((db.likedMessages u).map (fun m => m.id)).contains mid = false := by
      rw [hc]; simpa using h
    have hmm : mid ∉ (db.likedMessages u).map (fun m => m.id) := by simpa using hcf
    simp [handle_like_unlike, hm, hown, hcf, hmm, h]

/-- C3: for a logged-in user and an existing message that is not their own,
applying the `_handle_like_unlike` toggle twice in succession from the same
starting state returns the like-edge table to a permutation of — hence the
same set as — its original state. -/
theorem like_toggle_twice_restores (db : DB) (u : UserRec) (mid : Nat) (msg : Msg)
    (hnd : db.likes.Nodup)
    (hm : db.getMessage mid = some msg)
    (hown : msg.user_id ≠ u.id) :
    ((handle_like_unlike (handle_like_unlike db u mid).db u mid).db.likes).Perm
      db.likes := by
  by_cases h : (u.id, mid) ∈ db.likes
  · rw [handle_like_unlike_eq db u mid msg hm hown, if_pos h]
    have hm2 : DB.getMessage { db with likes := db.likes.erase (u.id, mid) } mid
        = some msg := hm
    rw [handle_like_unlike_eq _ u mid msg hm2 hown]
    have hne : (u.id, mid) ∉
        ({ db with likes := db.likes.erase (u.id, mid) } : DB).likes := by
      intro hx
      exact ((hnd.mem_erase_iff).mp hx).1 rfl
    rw [if_neg hne]
    show ((db.likes.erase (u.id, mid)) ++ [(u.id, mid)]).Perm db.likes
    refine (List.perm_append_singleton _ _).trans ?_
    rw [erase_pair_eq]
    exact (List.perm_cons_erase h).symm
  · rw [handle_like_unlike_eq db u mid msg hm hown, if_neg h]
    have hm2 : DB.getMessage { db with likes := db.likes ++ [(u.id, mid)] } mid
        = some msg := hm
    rw [handle_like_unlike_eq _ u mid msg hm2 hown]
    have hmem2 : (u.id, mid) ∈
        ({ db with likes := db.likes ++ [(u.id, mid)] } : DB).likes := by
      show (u.id, mid) ∈ db.likes ++ [(u.id, mid)]
      simp
    rw [if_pos hmem2]
    show ((db.likes ++ [(u.id, mid)]).erase (u.id, mid)).Perm db.likes
    have he : (db.likes ++ [(u.id, mid)]).erase (u.id, mid) = db.likes := by
      rw [List.erase_append_right _ h]
      simp
    rw [he]

/-- C3 witness: user 1 toggling message 10 (owned by user 2, already liked)
twice returns the like table to a permutation of its original state. -/
theorem like_toggle_twice_restores_witness :
    ((handle_like_unlike
        (handle_like_unlike dbLikedMessage (mkUser 1 "alice" "alice@mail") 10).db
        (mkUser 1 "alice" "alice@mail") 10).db.likes).Perm dbLikedMessage.likes :=
  like_toggle_twice_restores dbLikedMessage (mkUser 1 "alice" "alice@mail") 10
    (mkMsg 10 2 4) (by decide) rfl (by decide)

/-- C4: GET / renders the message-free anonymous template when the session
holds no user, and for a logged-in user renders the timeline query result,
which holds at most 100 messages, ordered newest first by timestamp, each
authored by the user themself or by a user they follow. -/
theorem homepage_contract (db : DB) (uid : Nat) (u : UserRec)
    (hg : add_user_to_g db (some uid) = some u) :
    homepage db none =
      { response := .renderHomeAnon, db := db, session := none, flashes := [] }
    ∧ homepage db (some uid) =
      { response := .renderHome (homepageMessages db u)
          ((db.likedMessages u).map (fun m => m.id)),
        db := db, session := some uid, flashes := [] }
    ∧ (homepageMessages db u).length ≤ 100
    ∧ (homepageMessages db u).Pairwise (fun a b => b.timestamp ≤ a.timestamp)
    ∧ ∀ m ∈ homepageMessages db u,
        m.user_id = u.id ∨ ∃ v ∈ db.following u, v.id = m.user_id := by
  refine ⟨rfl, ?_, ?_, ?_, ?_⟩
  · simp [homepage, hg]
  · exact List.length_take_le _ _
  · have htrans : ∀ a b c : Msg, decide (b.timestamp ≤ a.timestamp) = true →
        decide (c.timestamp ≤ b.timestamp) = true →
        decide (c.timestamp ≤ a.timestamp) = true := by
      intro a b c hab hbc
      simp at hab hbc ⊢
      omega
    have htotal : ∀ a b : Msg, (decide (b.timestamp ≤ a.timestamp) ||
        decide (a.timestamp ≤ b.timestamp)) = true := by
      intro a b
      simp
      omega
    have hs := List.sorted_mergeSort htrans htotal
      (db.messages.filter (fun m =>
        (((db.following u).map (fun v => v.id)).contains m.user_id || m.user_id == u.id)))
    have hp := List.Pairwise.sublist (List.take_sublist 100 _) hs
    exact hp.imp (fun hab => by simpa using hab)
  · intro m hmem
    have h1 : m ∈ (db.messages.filter (fun m =>
        (((db.following u).map (fun v => v.id)).contains m.user_id
          || m.user_id == u.id))).mergeSort
        (fun a b => decide (b.timestamp ≤ a.timestamp)) :=
      (List.take_sublist 100 _).subset hmem
    have h2 := (List.mergeSort_perm _ _).subset h1
    have h3 := (List.mem_filter.mp h2).2
    simp at h3
    rcases h3 with ⟨v, hv, hvid⟩ | hid
    · exact Or.inr ⟨v, hv, hvid⟩
    · exact Or.inl hid

/-- C4 witness: the contract at the concrete timeline database — user 1
follows user 2, so the logged-in homepage shows only messages of users 1
and 2, newest first, and the anonymous homepage shows none. -/
theorem homepage_contract_witness :
    homepage dbTimeline none =
      { response := .renderHomeAnon, db := dbTimeline, session := none, flashes := [] }
    ∧ (homepageMessages dbTimeline (mkUser 1 "alice" "alice@mail")).length ≤ 100
    ∧ (homepageMessages dbTimeline (mkUser 1 "alice" "alice@mail")).Pairwise
        (fun a b => b.timestamp ≤ a.timestamp) := by
  have h := homepage_contract dbTimeline 1 (mkUser 1 "alice" "alice@mail") rfl
  exact ⟨h.1, h.2.2.1, h.2.2.2.1⟩

end Warbler
